import Mathlib

/-!
Verification of the telemetry ingestion portal of the ESG reporting frontend:
the mock payload catalog, the custom mock store, the submit flow, the
ingestion history log, the dashboard aggregation, and the HTTP client
wrappers.  JavaScript values are modelled by a small JSON datatype; host
facilities (the wall clock, the random suffix generator, JSON.parse) are
explicit parameters of the modelled handlers.
-/

namespace EsgPortal

/-- JSON values as manipulated by the frontend.  Numbers are modelled as
rationals. -/
inductive Json where
  | null : Json
  | bool (b : Bool) : Json
  | num (q : ℚ) : Json
  | str (s : String) : Json
  | arr (elems : List Json) : Json
  | obj (fields : List (String × Json)) : Json

/-- JavaScript truthiness of a JSON value (NaN is not representable here). -/
def Json.truthy : Json → Bool
  | .null => false
  | .bool b => b
  | .num q => q != 0
  | .str s => s != ""
  | .arr _ => true
  | .obj _ => true

/-- Property lookup on the field list of a JSON object; `none` models
JavaScript `undefined`. -/
def lookupField : List (String × Json) → String → Option Json
  | [], _ => none
  | (k', v) :: rest, k => if k' = k then some v else lookupField rest k

/-- Property access `x.k`: `none` models `undefined` (also for non-objects). -/
def Json.getField : Json → String → Option Json
  | .obj fields, k => lookupField fields k
  | _, _ => none

/-- Property assignment `x.k = v` on an object's field list: replaces the
value if the key is present, otherwise appends the new key at the end
(JavaScript insertion order). -/
def setField : List (String × Json) → String → Json → List (String × Json)
  | [], k, v => [(k, v)]
  | (k', v') :: rest, k, v =>
      if k' = k then (k, v) :: rest else (k', v') :: setField rest k v

/-- Truthiness of a possibly-undefined value (`undefined` is falsy). -/
def optTruthy : Option Json → Bool
  | some v => v.truthy
  | none => false

/-- JavaScript `String.prototype.trim`, modelled at the character level:
drop leading and trailing whitespace.  (Structurally recursive so that
concrete instances reduce.) -/
def jsTrim (s : String) : String :=
  ⟨((s.data.dropWhile Char.isWhitespace).reverse.dropWhile
      Char.isWhitespace).reverse⟩

/-! ### Decimal rendering of natural numbers

`Date.now()` values are interpolated into template strings, so the id
generators depend on `Nat.repr`.  The lemmas below recover an explicit
characterisation of `Nat.repr` (via `decChars`) and prove it injective and
free of the `'-'` separator character. -/

/-- The decimal digit characters of `n`, most significant first; this is the
list that `Nat.toDigits 10` produces. -/
def decChars (n : Nat) : List Char :=
  if _ : n < 10 then [Nat.digitChar n]
  else decChars (n / 10) ++ [Nat.digitChar (n % 10)]
decreasing_by exact Nat.div_lt_self (by omega) (by omega)

/-- Reading a digit-character list back as a number (base 10). -/
def decVal (cs : List Char) : Nat :=
  cs.foldl (fun a c => 10 * a + (c.toNat - 48)) 0

/-! ### Mock payload catalog (`ingestionMocks`)

The host environment of one realization of a generator payload: the value
`Date.now()` returns, the string `new Date().toISOString()` returns, and the
random suffix `Math.random().toString(36).slice(2, 9)` produces (seven base-36
characters, so in particular free of `'-'`). -/

structure MockEnv where
  nowMs : Nat
  nowIso : String
  rand : String

/-- Source: `const now = () => new Date().toISOString();`. -/
def now (env : MockEnv) : String := env.nowIso

/-- Source: the template string `mock-` + `Date.now()` + `-` + random suffix. -/
def uniqueId (env : MockEnv) : String :=
  "mock-" ++ Nat.repr env.nowMs ++ "-" ++ env.rand

/-- A mock descriptor's payload: either a static JSON object or a
zero-argument generator reading the host clock and random source. -/
inductive MockPayload where
  | static (j : Json)
  | gen (f : MockEnv → Json)

structure Mock where
  id : String
  name : String
  description : String
  vertical : String
  payload : MockPayload

/-- Source: `getMockPayload` dispatches on whether the stored payload is a
function. -/
def getMockPayload (mock : Mock) (env : MockEnv) : Json :=
  match mock.payload with
  | .gen f => f env
  | .static j => j

def aiTrainingFull : Mock where
  id := "ai-training-full"
  name := "AI Training Data Center"
  description := "Full stack: energy, carbon, water, compute (training), hardware, data quality. Use for GPU training facilities."
  vertical := "AI Training"
  payload := .gen fun env => .obj [
    ("timestamp", .str (now env)),
    ("asset_id", .str "DC1-TRAIN-A01"),
    ("region", .str "us-west-2"),
    ("source_id", .str "mock-gateway"),
    ("external_event_id", .str (uniqueId env)),
    ("emission_factor_version", .str "v1"),
    ("energy", .obj [
      ("facility_kwh", .num 2400.0),
      ("it_kwh", .num 2000.0),
      ("cooling_kwh", .num 360.0),
      ("generator_fuel_liters", .num 0),
      ("energy_unit", .str "kWh")]),
    ("carbon", .obj [
      ("scope1_kg_co2e", .num 0),
      ("scope2_location_kg_co2e", .num 480.0),
      ("scope2_market_kg_co2e", .num 420.0),
      ("grid_carbon_intensity_kg_per_kwh", .num 0.24),
      ("carbon_unit", .str "kg_co2e")]),
    ("water", .obj [
      ("withdrawal_liters", .num 12000.0),
      ("returned_liters", .num 9600.0),
      ("consumed_liters", .num 2400.0),
      ("reclaimed_liters", .num 2400.0),
      ("evaporation_liters", .num 1800.0),
      ("blowdown_liters", .num 600.0),
      ("water_unit", .str "liters")]),
    ("compute", .obj [
      ("gpu_hours", .num 400.0),
      ("gpu_count", .num 200),
      ("run_duration_seconds", .num 14400),
      ("run_type", .str "training"),
      ("training_runs", .num 8),
      ("inference_requests", .num 0)]),
    ("hardware", .obj [
      ("utilization_pct", .num 78.0),
      ("idle_rate_pct", .num 22.0),
      ("asset_state", .str "active")]),
    ("data_quality", .obj [
      ("completeness_pct", .num 99.0),
      ("latency_seconds", .num 3.0),
      ("outlier_flag", .bool false),
      ("drift_flag", .bool false),
      ("confidence_score", .num 0.95)])]

def aiInferenceServing : Mock where
  id := "ai-inference-serving"
  name := "AI Inference / Serving"
  description := "Energy + compute (inference requests). Use for inference-only or serving clusters."
  vertical := "AI Inference"
  payload := .gen fun env => .obj [
    ("timestamp", .str (now env)),
    ("asset_id", .str "DC2-INFER-B02"),
    ("region", .str "eu-west-1"),
    ("source_id", .str "mock-gateway"),
    ("external_event_id", .str (uniqueId env)),
    ("energy", .obj [
      ("facility_kwh", .num 800.0),
      ("it_kwh", .num 680.0),
      ("cooling_kwh", .num 100.0),
      ("energy_unit", .str "kWh")]),
    ("compute", .obj [
      ("gpu_hours", .num 85.0),
      ("gpu_count", .num 50),
      ("training_runs", .num 0),
      ("inference_requests", .num 125000)]),
    ("hardware", .obj [
      ("utilization_pct", .num 62.0),
      ("idle_rate_pct", .num 38.0),
      ("asset_state", .str "active")])]

def colocationEnergy : Mock where
  id := "colocation-energy"
  name := "Colocation — Energy Only"
  description := "Minimal: energy block only. Use for colo or facilities without water/compute telemetry."
  vertical := "Colocation"
  payload := .gen fun env => .obj [
    ("timestamp", .str (now env)),
    ("asset_id", .str "COLO-HALL-3"),
    ("region", .str "us-east-1"),
    ("external_event_id", .str (uniqueId env)),
    ("energy", .obj [
      ("facility_kwh", .num 5000.0),
      ("it_kwh", .num 4200.0),
      ("cooling_kwh", .num 700.0),
      ("energy_unit", .str "kWh")])]

def waterIntensive : Mock where
  id := "water-intensive"
  name := "Water-Intensive Cooling"
  description := "Energy + water (tower, blowdown, reclaimed). Use for evaporative cooling sites."
  vertical := "Water-Critical"
  payload := .gen fun env => .obj [
    ("timestamp", .str (now env)),
    ("asset_id", .str "DC3-WATER-A01"),
    ("region", .str "us-southwest"),
    ("external_event_id", .str (uniqueId env)),
    ("energy", .obj [
      ("facility_kwh", .num 3000.0),
      ("it_kwh", .num 2500.0),
      ("cooling_kwh", .num 450.0),
      ("energy_unit", .str "kWh")]),
    ("water", .obj [
      ("withdrawal_liters", .num 25000.0),
      ("returned_liters", .num 20000.0),
      ("consumed_liters", .num 5000.0),
      ("reclaimed_liters", .num 5000.0),
      ("evaporation_liters", .num 3800.0),
      ("blowdown_liters", .num 1200.0),
      ("water_unit", .str "liters")])]

def hpcResearch : Mock where
  id := "hpc-research"
  name := "HPC / Research"
  description := "Energy, compute, hardware. Use for HPC or research compute clusters."
  vertical := "HPC"
  payload := .gen fun env => .obj [
    ("timestamp", .str (now env)),
    ("asset_id", .str "HPC-CLUSTER-01"),
    ("region", .str "us-central"),
    ("external_event_id", .str (uniqueId env)),
    ("energy", .obj [
      ("facility_kwh", .num 6000.0),
      ("it_kwh", .num 5200.0),
      ("cooling_kwh", .num 720.0),
      ("energy_unit", .str "kWh")]),
    ("compute", .obj [
      ("gpu_hours", .num 1200.0),
      ("gpu_count", .num 400),
      ("run_duration_seconds", .num 43200),
      ("run_type", .str "training"),
      ("training_runs", .num 24),
      ("inference_requests", .num 0)]),
    ("hardware", .obj [
      ("utilization_pct", .num 88.0),
      ("idle_rate_pct", .num 12.0),
      ("asset_state", .str "active")])]

def edgeMinimal : Mock where
  id := "edge-minimal"
  name := "Edge / Minimal"
  description := "Minimal energy + compute. Use for edge or small sites with limited sensors."
  vertical := "Edge"
  payload := .gen fun env => .obj [
    ("timestamp", .str (now env)),
    ("asset_id", .str "EDGE-01"),
    ("region", .str "on-prem"),
    ("external_event_id", .str (uniqueId env)),
    ("energy", .obj [
      ("facility_kwh", .num 120.0),
      ("it_kwh", .num 100.0),
      ("cooling_kwh", .num 18.0),
      ("energy_unit", .str "kWh")]),
    ("compute", .obj [
      ("gpu_hours", .num 12.0),
      ("gpu_count", .num 4),
      ("training_runs", .num 0),
      ("inference_requests", .num 500)])]

def fullBenchmark : Mock where
  id := "full-benchmark"
  name := "Full Benchmark (All Blocks)"
  description := "All blocks populated — carbon, water, energy, compute, hardware, data_quality. Schema reference."
  vertical := "Reference"
  payload := .gen fun env => .obj [
    ("timestamp", .str (now env)),
    ("asset_id", .str "DC1-RACK-A01"),
    ("region", .str "us-west"),
    ("source_id", .str "gateway-01"),
    ("external_event_id", .str (uniqueId env)),
    ("emission_factor_version", .str "v1"),
    ("energy", .obj [
      ("facility_kwh", .num 1200.0),
      ("it_kwh", .num 1000.0),
      ("cooling_kwh", .num 180.0),
      ("generator_fuel_liters", .num 0),
      ("energy_unit", .str "kWh")]),
    ("water", .obj [
      ("withdrawal_liters", .num 8000.0),
      ("returned_liters", .num 6400.0),
      ("consumed_liters", .num 1600.0),
      ("reclaimed_liters", .num 1600.0),
      ("evaporation_liters", .num 1200.0),
      ("blowdown_liters", .num 400.0),
      ("water_unit", .str "liters")]),
    ("compute", .obj [
      ("gpu_hours", .num 200.0),
      ("gpu_count", .num 100),
      ("run_duration_seconds", .num 7200),
      ("run_type", .str "training"),
      ("training_runs", .num 4),
      ("inference_requests", .num 0)]),
    ("hardware", .obj [
      ("utilization_pct", .num 75.0),
      ("idle_rate_pct", .num 25.0),
      ("asset_state", .str "active")]),
    ("data_quality", .obj [
      ("completeness_pct", .num 98.0),
      ("latency_seconds", .num 5.0),
      ("outlier_flag", .bool false),
      ("drift_flag", .bool false),
      ("confidence_score", .num 0.92)])]

def carbonIntensive : Mock where
  id := "carbon-intensive"
  name := "Carbon-Intensive Region"
  description := "Carbon block + energy. Use to test Scope 1/2 and grid intensity handling."
  vertical := "Carbon-Focused"
  payload := .gen fun env => .obj [
    ("timestamp", .str (now env)),
    ("asset_id", .str "DC-HIGH-CARBON"),
    ("region", .str "high-grid-intensity"),
    ("external_event_id", .str (uniqueId env)),
    ("energy", .obj [
      ("facility_kwh", .num 1500.0),
      ("it_kwh", .num 1250.0),
      ("cooling_kwh", .num 220.0),
      ("energy_unit", .str "kWh")]),
    ("carbon", .obj [
      ("scope1_kg_co2e", .num 50.0),
      ("scope2_location_kg_co2e", .num 600.0),
      ("scope2_market_kg_co2e", .num 500.0),
      ("grid_carbon_intensity_kg_per_kwh", .num 0.48),
      ("carbon_unit", .str "kg_co2e")])]

def dataQualityFocus : Mock where
  id := "data-quality-focus"
  name := "Data Quality Focus"
  description := "Compute + hardware + data_quality. Use to test confidence and outlier/drift flags."
  vertical := "Data Quality"
  payload := .gen fun env => .obj [
    ("timestamp", .str (now env)),
    ("asset_id", .str "DC-QUALITY-01"),
    ("region", .str "us-west"),
    ("external_event_id", .str (uniqueId env)),
    ("compute", .obj [
      ("gpu_hours", .num 100.0),
      ("gpu_count", .num 50),
      ("training_runs", .num 2),
      ("inference_requests", .num 10000)]),
    ("hardware", .obj [
      ("utilization_pct", .num 70.0),
      ("idle_rate_pct", .num 30.0),
      ("asset_state", .str "active")]),
    ("data_quality", .obj [
      ("completeness_pct", .num 95.0),
      ("latency_seconds", .num 8.0),
      ("outlier_flag", .bool false),
      ("drift_flag", .bool true),
      ("confidence_score", .num 0.85)])]

def SUSTAINABILITY_MOCKS : List Mock :=
  [aiTrainingFull, aiInferenceServing, colocationEnergy, waterIntensive,
   hpcResearch, edgeMinimal, fullBenchmark, carbonIntensive, dataQualityFocus]

def legacyNormal : Mock where
  id := "legacy-normal"
  name := "Legacy — Normal"
  description := "CO₂ and temperature within safe range. Expect NORMAL status."
  vertical := "Alerts"
  payload := .gen fun _ => .obj [
    ("CO2_ppm", .num 420),
    ("Temperature_C", .num 28.5)]

def legacyWarning : Mock where
  id := "legacy-warning"
  name := "Legacy — Warning"
  description := "One or both metrics near threshold. May return WARNING."
  vertical := "Alerts"
  payload := .gen fun _ => .obj [
    ("CO2_ppm", .num 550),
    ("Temperature_C", .num 38.0)]

def legacyCritical : Mock where
  id := "legacy-critical"
  name := "Legacy — Critical"
  description := "Exceeds critical thresholds. Expect ALERT_TRIGGERED."
  vertical := "Alerts"
  payload := .gen fun _ => .obj [
    ("CO2_ppm", .num 650),
    ("Temperature_C", .num 48.0)]

def LEGACY_MOCKS : List Mock := [legacyNormal, legacyWarning, legacyCritical]

/-! ### Dashboard metrics

The predicate and the summary statistics below appear textually identically
in the combined portal (`TelemetryIngestionPortal.jsx`, DashboardTab) and in
the standalone dashboard variant (TelemetryDashboard / MetricDetailModal /
MetricSection), so a single embedding serves both occurrences. -/

structure Metric where
  metric_type : String
  value : Option ℚ
  unit : Option String
  asset_id : Option String
  region : Option String
  timestamp_utc : Option String

/-- JavaScript `v > c` where `v` may be `undefined` (comparisons against
`undefined` are false). -/
def jsGt (v : Option ℚ) (c : ℚ) : Bool :=
  match v with
  | some x => decide (c < x)
  | none => false

/-- JavaScript `v < c` where `v` may be `undefined`. -/
def jsLt (v : Option ℚ) (c : ℚ) : Bool :=
  match v with
  | some x => decide (x < c)
  | none => false

/-- The per-metric critical-condition predicate of the dashboard. -/
def isCritical (m : Metric) : Bool :=
  (m.metric_type == "pue" && jsGt m.value 2) ||
  (m.metric_type == "utilization_pct" && jsLt m.value 30) ||
  (m.metric_type == "wue" && jsGt m.value 2)

/-- The metrics report consumed by the dashboard; every category may be
absent from the fetched object. -/
structure Report where
  carbon : Option (List Metric)
  water : Option (List Metric)
  efficiency : Option (List Metric)
  hardware : Option (List Metric)
  data_quality : Option (List Metric)
  sustainability_score : Option ℚ

/-- JavaScript `x || null` on a possibly-undefined number: both `undefined`
and `0` collapse to `null`. -/
def jsNumOrNull (v : Option ℚ) : Option ℚ :=
  match v with
  | some x => if x = 0 then none else some x
  | none => none

/-- Source: `data.efficiency?.find((m) => m.metric_type === 'pue')?.value || null`. -/
def avgPUE (data : Report) : Option ℚ :=
  jsNumOrNull ((data.efficiency.bind
    (List.find? (fun m => m.metric_type == "pue"))).bind Metric.value)

/-- Source: `data.hardware?.find((m) => m.metric_type === 'utilization_pct')?.value || null`. -/
def avgUtilization (data : Report) : Option ℚ :=
  jsNumOrNull ((data.hardware.bind
    (List.find? (fun m => m.metric_type == "utilization_pct"))).bind Metric.value)

/-- Source: `data.carbon?.reduce((sum, m) => sum + (m.value || 0), 0) || 0`
(the trailing `|| 0` only maps an absent list to 0 and fixes 0 to 0). -/
def totalCarbon (data : Report) : ℚ :=
  match data.carbon with
  | some l => l.foldl (fun s m => s + m.value.getD 0) 0
  | none => 0

def totalWater (data : Report) : ℚ :=
  match data.water with
  | some l => l.foldl (fun s m => s + m.value.getD 0) 0
  | none => 0

/-- Source: `summaryStats.avgPUE != null && summaryStats.avgPUE > 2.0`
(the summary card / contextual alert gate). -/
def summaryPueCritical (data : Report) : Bool :=
  match avgPUE data with
  | some v => decide (2 < v)
  | none => false

/-- Source: `summaryStats.avgUtilization != null && summaryStats.avgUtilization < 30`. -/
def summaryUtilCritical (data : Report) : Bool :=
  match avgUtilization data with
  | some v => decide (v < 30)
  | none => false

/-! ### Ingestion submit flow (`handleSubmit`)

`JSON.parse` is a host facility and is passed in as `parse`; a `none` result
models a parse exception.  The submit handler either raises a local notice
(`alert`, no network call) or hands the body to one of the two mutations. -/

inductive SubmitAction where
  | noCall (notice : String)
  | sustainability (body : Json)
  | legacy (body : Json)

/-- Source: `if (!payload.timestamp) payload.timestamp = new Date().toISOString()`.
A present falsy `timestamp` is also overwritten (JavaScript truthiness);
non-object payloads are outside the claims and left unchanged. -/
def injectTimestamp (nowIso : String) (payload : Json) : Json :=
  match payload with
  | .obj fields =>
      if optTruthy (lookupField fields "timestamp") then .obj fields
      else .obj (setField fields "timestamp" (.str nowIso))
  | p => p

def handleSubmit (parse : String → Option Json) (nowIso : String)
    (ingestionType : String) (jsonInput : String) : SubmitAction :=
  if jsTrim jsonInput = "" then
    .noCall "Please enter JSON payload or load an example"
  else
    match parse jsonInput with
    | none => .noCall "Invalid JSON"
    | some payload =>
        if ingestionType = "sustainability" then
          .sustainability (injectTimestamp nowIso payload)
        else
          .legacy payload

/-- Whether the submit flow reached `mutation.mutate` (a network call). -/
def invokesMutation : SubmitAction → Bool
  | .noCall _ => false
  | .sustainability _ => true
  | .legacy _ => true

/-! ### Custom mock store -/

structure CustomMock where
  id : String
  name : String
  payload : String
  type : String
  savedAt : String
deriving DecidableEq

/-- Source: `handleSaveCustomMock`.  The boolean result records whether
`setCustomMocks` ran; the persistence effect (a storage write of the full
list) runs exactly when it did. -/
def handleSaveCustomMock (parse : String → Option Json) (nowMs : Nat)
    (nowIso : String) (ingestionType : String)
    (jsonInput customMockName : String)
    (prev : List CustomMock) : List CustomMock × Bool :=
  if jsTrim jsonInput = "" ∨ jsTrim customMockName = "" then (prev, false)
  else
    match parse jsonInput with
    | none => (prev, false)
    | some _ =>
        ({ id := "custom-" ++ Nat.repr nowMs,
           name := jsTrim customMockName,
           payload := jsTrim jsonInput,
           type := ingestionType,
           savedAt := nowIso } :: prev, true)

/-- Source: `setCustomMocks((prev) => prev.filter((m) => m.id !== id))`. -/
def handleDeleteCustomMock (id : String) (prev : List CustomMock) : List CustomMock :=
  prev.filter (fun m => m.id != id)

/-! ### Ingestion history log -/

structure HistoryEntry where
  id : Nat
  timestamp : String
  status : String
  type : String
  data : Json

/-- Source (combined portal): prepend a fresh success entry and keep at most
`prev.slice(0, 19)` older entries. -/
def handleIngestSuccess (nowMs : Nat) (nowIso : String) (ty : String)
    (d : Json) (prev : List HistoryEntry) : List HistoryEntry :=
  { id := nowMs, timestamp := nowIso, status := "success", type := ty, data := d }
    :: prev.take 19

/-- Source (standalone IngestionPortal variant): same shape with
`prev.slice(0, 9)`. -/
def ingestionPortalOnSuccess (nowMs : Nat) (nowIso : String) (ty : String)
    (d : Json) (prev : List HistoryEntry) : List HistoryEntry :=
  { id := nowMs, timestamp := nowIso, status := "success", type := ty, data := d }
    :: prev.take 9

structure IngestEvent where
  nowMs : Nat
  nowIso : String
  type : String
  data : Json

def runHistory (events : List IngestEvent) : List HistoryEntry :=
  events.foldl (fun acc e => handleIngestSuccess e.nowMs e.nowIso e.type e.data acc) []

def runHistoryPortal (events : List IngestEvent) : List HistoryEntry :=
  events.foldl (fun acc e => ingestionPortalOnSuccess e.nowMs e.nowIso e.type e.data acc) []

/-! ### HTTP client wrappers

Two wrappers exist in the source: the axios-based `client.js` (response
interceptor and `errorMessage`) and a fetch-based `request` helper.  `none`
models an undefined value (no response body / no field). -/

/-- JavaScript `x && typeof x === 'object'`: a truthy value of object type
(objects and arrays; `null` is excluded by the truthiness conjunct). -/
def Json.isTruthyObject : Json → Bool
  | .arr _ => true
  | .obj _ => true
  | _ => false

/-- JavaScript `x ?? null` folded into the option: `null`/`undefined` become
`none`, every other value (falsy included) is kept. -/
def jsNullish : Option Json → Option Json
  | some .null => none
  | some v => some v
  | none => none

/-- Source (`client.js`): `errorMessage(data)`. -/
def errorMessage (data : Option Json) : Option Json :=
  match data with
  | none => none
  | some d =>
      if d.truthy then
        match d.getField "error" with
        | some e =>
            if e.isTruthyObject && optTruthy (e.getField "message") then
              e.getField "message"
            else
              match e with
              | .str s => some (.str s)
              | _ => jsNullish (d.getField "message")
        | none => jsNullish (d.getField "message")
      else none

/-- JavaScript string coercion `String(x)` as applied by `new Error(x)`.
Only the string and object cases are exercised by the claims; the decimal
rendering of numbers is abbreviated by the rational's representation. -/
def jsToString : Json → String
  | .null => "null"
  | .bool true => "true"
  | .bool false => "false"
  | .num q => toString q
  | .str s => s
  | .arr xs => String.intercalate "," (xs.attach.map (fun c => jsToString c.1))
  | .obj _ => "[object Object]"
decreasing_by
  simp_wf
  have := List.sizeOf_lt_of_mem c.2
  omega

structure ClientError where
  message : String
  status : Option Nat
  data : Option Json

/-- Source (`client.js` response interceptor): builds the uniform error from
`err.response` (status and parsed data, absent on a network failure) and the
transport-level `err.message`. -/
def clientError (response : Option (Nat × Json)) (transportMessage : String) :
    ClientError :=
  let data : Option Json := response.map (·.2)
  { message :=
      match errorMessage data with
      | some v => jsToString v
      | none => transportMessage,
    status := response.map (·.1),
    data := data }

/-- JavaScript `a || b` on possibly-undefined JSON values. -/
def jsOrJ (a : Option Json) (b : Option Json) : Option Json :=
  match a with
  | some v => if v.truthy then some v else b
  | none => b

/-- Source (fetch-based `request`): the argument of `new Error(...)`, namely
`data?.error || data?.message || res.statusText || \x7bHTTP $\x7bres.status\x7d\x7d`. -/
def requestErrorValue (data : Option Json) (statusText : String) (status : Nat) : Json :=
  (jsOrJ (data.bind (Json.getField · "error"))
    (jsOrJ (data.bind (Json.getField · "message"))
      (jsOrJ (some (.str statusText))
        (some (.str ("HTTP " ++ Nat.repr status)))))).getD
    (.str ("HTTP " ++ Nat.repr status))

structure RequestError where
  message : String
  status : Nat
  data : Option Json

/-- Source (fetch-based `request`): the thrown error on `!res.ok`. -/
def requestError (data : Option Json) (statusText : String) (status : Nat) :
    RequestError :=
  { message := jsToString (requestErrorValue data statusText status),
    status := status,
    data := data }

/-- One invocation of the save handler: the host clock values and the user
inputs at that click. -/
structure SaveOp where
  nowMs : Nat
  nowIso : String
  ingestionType : String
  jsonInput : String
  customMockName : String

/-- A sequence of save clicks applied to an initial custom mock list. -/
def runSaves (parse : String → Option Json) (ops : List SaveOp)
    (init : List CustomMock) : List CustomMock :=
  ops.foldl (fun acc op =>
    (handleSaveCustomMock parse op.nowMs op.nowIso op.ingestionType
      op.jsonInput op.customMockName acc).1) init

/-! ### Concrete fixtures used by witnesses and counterexamples -/

def envA : MockEnv :=
  { nowMs := 1000, nowIso := "2024-01-01T00:00:00.000Z", rand := "aaaaaaa" }

def envB : MockEnv :=
  { nowMs := 2000, nowIso := "2024-01-01T00:00:01.000Z", rand := "bbbbbbb" }

def structuredErrorBody : Json :=
  .obj [("error", .obj [("code", .str "VALIDATION"), ("message", .str "bad field")])]

/-- A parse oracle that accepts every buffer with a fixed result. -/
def constParse (j : Json) : String → Option Json := fun _ => some j

def sampleCustomMock : CustomMock :=
  { id := "custom-1", name := "sample", payload := "1", type := "sustainability",
    savedAt := "2024-01-01T00:00:00.000Z" }

def saveOpA : SaveOp :=
  { nowMs := 5, nowIso := "2024-01-01T00:00:00.005Z",
    ingestionType := "sustainability", jsonInput := "1", customMockName := "a" }

/-- A second save landing in the same millisecond as `saveOpA`. -/
def saveOpB : SaveOp :=
  { nowMs := 5, nowIso := "2024-01-01T00:00:00.005Z",
    ingestionType := "legacy", jsonInput := "2", customMockName := "b" }

def saveOpC : SaveOp :=
  { nowMs := 6, nowIso := "2024-01-01T00:00:00.006Z",
    ingestionType := "sustainability", jsonInput := "3", customMockName := "c" }

def zeroPueMetric : Metric :=
  { metric_type := "pue", value := some 0, unit := none, asset_id := none,
    region := none, timestamp_utc := none }

def zeroPueReport : Report :=
  { carbon := none, water := none, efficiency := some [zeroPueMetric],
    hardware := none, data_quality := none, sustainability_score := none }

/-! ## Theorems -/

theorem toDigitsCore_eq_decChars (fuel : Nat) :
    ∀ n ds, n < fuel → Nat.toDigitsCore 10 fuel n ds = decChars n ++ ds := by
  induction fuel with
  | zero => intro n ds h; omega
  | succ f ih =>
    intro n ds h
    by_cases h10 : n < 10
    · have hdiv : n / 10 = 0 := Nat.div_eq_of_lt h10
      have hmod : n % 10 = n := Nat.mod_eq_of_lt h10
      rw [Nat.toDigitsCore, decChars]
      simp [hdiv, hmod, h10]
    · have hge : 10 ≤ n := by omega
      have hdiv1 : 1 ≤ n / 10 := (Nat.le_div_iff_mul_le (by omega)).mpr (by omega)
      have hlt : n / 10 < n := Nat.div_lt_self (by omega) (by omega)
      have hstep : decChars n = decChars (n / 10) ++ [Nat.digitChar (n % 10)] := by
        rw [decChars]
        simp [h10]
      rw [Nat.toDigitsCore]
      simp only [show ¬ (n / 10 = 0) by omega, if_false]
      rw [ih (n / 10) _ (by omega), hstep]
      simp [List.append_assoc]

theorem repr_eq_decChars (n : Nat) : Nat.repr n = (decChars n).asString := by
  show (Nat.toDigits 10 n).asString = (decChars n).asString
  rw [Nat.toDigits, toDigitsCore_eq_decChars (n + 1) n [] (Nat.lt_succ_self n)]
  simp

theorem digitChar_toNat (d : Nat) (h : d < 10) : (Nat.digitChar d).toNat = d + 48 := by
  interval_cases d <;> rfl


theorem decVal_decChars (n : Nat) : decVal (decChars n) = n := by
  induction n using Nat.strong_induction_on with
  | _ n ih =>
    by_cases h : n < 10
    · rw [decChars]
      simp only [h, dite_true, decVal, List.foldl]
      rw [digitChar_toNat n h]
      omega
    · have hlt : n / 10 < n := Nat.div_lt_self (by omega) (by omega)
      rw [decChars]
      simp only [h, dite_false]
      rw [decVal, List.foldl_append]
      have hmod : n % 10 < 10 := Nat.mod_lt _ (by omega)
      have hrec : List.foldl (fun a c => 10 * a + (c.toNat - 48)) 0 (decChars (n / 10))
          = n / 10 := ih (n / 10) hlt
      rw [hrec]
      simp only [List.foldl]
      rw [digitChar_toNat (n % 10) hmod]
      omega

theorem decChars_injective : Function.Injective decChars := by
  intro a b h
  have ha := decVal_decChars a
  rw [h, decVal_decChars] at ha
  omega

theorem nat_repr_injective : Function.Injective Nat.repr := by
  intro a b h
  rw [repr_eq_decChars, repr_eq_decChars] at h
  apply decChars_injective
  have := congrArg String.data h
  simpa [List.asString] using this

theorem digitChar_ne_dash (d : Nat) (h : d < 10) : Nat.digitChar d ≠ '-' := by
  interval_cases d <;> decide

theorem decChars_ne_dash (n : Nat) : ∀ c ∈ decChars n, c ≠ '-' := by
  induction n using Nat.strong_induction_on with
  | _ n ih =>
    by_cases h : n < 10
    · rw [decChars]
      simp only [h, dite_true, List.mem_singleton]
      intro c hc
      subst hc
      exact digitChar_ne_dash n h
    · have hlt : n / 10 < n := Nat.div_lt_self (by omega) (by omega)
      rw [decChars]
      simp only [h, dite_false]
      intro c hc
      rcases List.mem_append.mp hc with hc | hc
      · exact ih (n / 10) hlt c hc
      · rw [List.mem_singleton] at hc
        subst hc
        exact digitChar_ne_dash (n % 10) (Nat.mod_lt _ (by omega))

theorem data_repr (n : Nat) : (Nat.repr n).data = decChars n := by
  rw [repr_eq_decChars]
  simp [List.asString]

theorem repr_ne_dash (n : Nat) : ∀ c ∈ (Nat.repr n).data, c ≠ '-' := by
  rw [data_repr]
  exact decChars_ne_dash n

/-! ### Splitting at the last dash

`uniqueId` produces `"mock-" ++ repr t ++ "-" ++ r` where both the digit
block and the random suffix are free of `'-'`; the lemmas below recover the
two components, which makes the id generator injective. -/

theorem takeWhile_append_dash (xs rest : List Char) (hxs : ∀ c ∈ xs, c ≠ '-') :
    (xs ++ '-' :: rest).takeWhile (fun c => c != '-') = xs := by
  induction xs with
  | nil => simp [List.takeWhile_cons]
  | cons a as ih =>
    have ha : a ≠ '-' := hxs a (List.mem_cons_self a as)
    have ha' : (a != '-') = true := by simp [ha]
    simp only [List.cons_append, List.takeWhile_cons, ha', if_true]
    rw [ih (fun c hc => hxs c (List.mem_cons_of_mem a hc))]

theorem dash_split_inj (x1 x2 r1 r2 : List Char)
    (hr1 : ∀ c ∈ r1, c ≠ '-') (hr2 : ∀ c ∈ r2, c ≠ '-')
    (h : x1 ++ '-' :: r1 = x2 ++ '-' :: r2) : x1 = x2 ∧ r1 = r2 := by
  have hrev := congrArg List.reverse h
  simp only [List.reverse_append, List.reverse_cons, List.append_assoc,
    List.singleton_append] at hrev
  have htw := congrArg (List.takeWhile (fun c => c != '-')) hrev
  rw [takeWhile_append_dash _ _ (fun c hc => hr1 c (List.mem_reverse.mp hc)),
    takeWhile_append_dash _ _ (fun c hc => hr2 c (List.mem_reverse.mp hc))] at htw
  have hr : r1 = r2 := List.reverse_injective htw
  subst hr
  exact ⟨List.append_cancel_right h, rfl⟩


theorem uniqueId_inj (e1 e2 : MockEnv)
    (h1 : ∀ c ∈ e1.rand.data, c ≠ '-') (h2 : ∀ c ∈ e2.rand.data, c ≠ '-')
    (h : uniqueId e1 = uniqueId e2) : e1.nowMs = e2.nowMs ∧ e1.rand = e2.rand := by
  have hd := congrArg String.data h
  simp only [uniqueId, String.data_append] at hd
  rw [List.append_assoc, List.append_assoc, List.append_assoc, List.append_assoc] at hd
  have hd' := List.append_cancel_left hd
  simp only [show ("-" : String).data = ['-'] from rfl, List.singleton_append] at hd'
  have := dash_split_inj _ _ _ _ h1 h2 hd'
  exact ⟨nat_repr_injective (String.ext this.1), String.ext this.2⟩


theorem customId_inj (t1 t2 : Nat)
    (h : "custom-" ++ Nat.repr t1 = "custom-" ++ Nat.repr t2) : t1 = t2 := by
  have hd := congrArg String.data h
  simp only [String.data_append] at hd
  exact nat_repr_injective (String.ext (List.append_cancel_left hd))

theorem setField_of_lookup_none (fields : List (String × Json)) (k : String)
    (v : Json) (h : lookupField fields k = none) :
    setField fields k v = fields ++ [(k, v)] := by
  induction fields with
  | nil => rfl
  | cons p rest ih =>
    obtain ⟨k', v'⟩ := p
    rw [lookupField] at h
    by_cases hk : k' = k
    · simp [hk] at h
    · rw [setField]
      simp only [hk, if_false, List.cons_append, List.cons.injEq, true_and]
      exact ih (by simpa [hk] using h)

/-- C2: the dashboard critical-condition predicate holds exactly when the
metric is a pue with value strictly above 2.0, a wue with value strictly
above 2.0, or a utilization_pct with value strictly below 30; the boundary
values 2.0 and 30.0 are not critical. -/
theorem critical_predicate_characterisation :
    (∀ m : Metric, isCritical m = true ↔
      ((m.metric_type = "pue" ∧ ∃ v, m.value = some v ∧ 2 < v) ∨
       (m.metric_type = "wue" ∧ ∃ v, m.value = some v ∧ 2 < v) ∨
       (m.metric_type = "utilization_pct" ∧ ∃ v, m.value = some v ∧ v < 30)))
    ∧ isCritical ⟨"pue", some 2, none, none, none, none⟩ = false
    ∧ isCritical ⟨"wue", some 2, none, none, none, none⟩ = false
    ∧ isCritical ⟨"utilization_pct", some 30, none, none, none, none⟩ = false
    ∧ isCritical ⟨"pue", some 2.5, none, none, none, none⟩ = true
    ∧ isCritical ⟨"pue", some 1.9, none, none, none, none⟩ = false
    ∧ isCritical ⟨"utilization_pct", some 29.9, none, none, none, none⟩ = true := by
  refine ⟨?_, by decide, by decide, by decide,
    by norm_num [isCritical, jsGt, jsLt],
    by norm_num [isCritical, jsGt, jsLt]; decide,
    by norm_num [isCritical, jsGt, jsLt]⟩
  intro m
  obtain ⟨ty, v, u, a, r, t⟩ := m
  cases v with
  | none => simp [isCritical, jsGt, jsLt]
  | some x =>
      simp only [isCritical, jsGt, jsLt, Bool.or_eq_true, Bool.and_eq_true,
        beq_iff_eq, decide_eq_true_eq, Option.some.injEq]
      constructor
      · rintro ((⟨h1, h2⟩ | ⟨h1, h2⟩) | ⟨h1, h2⟩)
        · exact Or.inl ⟨h1, x, rfl, h2⟩
        · exact Or.inr (Or.inr ⟨h1, x, rfl, h2⟩)
        · exact Or.inr (Or.inl ⟨h1, x, rfl, h2⟩)
      · rintro (⟨h1, w, hw, h2⟩ | ⟨h1, w, hw, h2⟩ | ⟨h1, w, hw, h2⟩) <;>
          cases hw
        · exact Or.inl (Or.inl ⟨h1, h2⟩)
        · exact Or.inr ⟨h1, h2⟩
        · exact Or.inl (Or.inr ⟨h1, h2⟩)

/-- C9: deleting an id removes exactly the mocks carrying that id, is a
no-op when no mock carries it, and is idempotent. -/
theorem delete_custom_mock_spec (prev : List CustomMock) (id : String) :
    (∀ m : CustomMock, m ∈ handleDeleteCustomMock id prev ↔
      (m ∈ prev ∧ m.id ≠ id))
    ∧ ((∀ m ∈ prev, m.id ≠ id) → handleDeleteCustomMock id prev = prev)
    ∧ handleDeleteCustomMock id (handleDeleteCustomMock id prev) =
        handleDeleteCustomMock id prev := by
  refine ⟨?_, ?_, ?_⟩
  · intro m
    simp [handleDeleteCustomMock, List.mem_filter, bne_iff_ne]
  · intro h
    rw [handleDeleteCustomMock]
    apply List.filter_eq_self.mpr
    intro m hm
    simpa [bne_iff_ne] using h m hm
  · simp [handleDeleteCustomMock, List.filter_filter, Bool.and_self]

/-- C9 witness: deleting an id that is not present leaves a concrete
one-element list unchanged. -/
theorem delete_custom_mock_spec_witness :
    handleDeleteCustomMock "absent" [sampleCustomMock] = [sampleCustomMock] :=
  (delete_custom_mock_spec [sampleCustomMock] "absent").2.1 (by decide)

theorem handleIngestSuccess_length (nowMs : Nat) (nowIso ty : String) (d : Json)
    (prev : List HistoryEntry) :
    (handleIngestSuccess nowMs nowIso ty d prev).length ≤ 20 := by
  simp only [handleIngestSuccess, List.length_cons, List.length_take]
  omega

theorem ingestionPortalOnSuccess_length (nowMs : Nat) (nowIso ty : String)
    (d : Json) (prev : List HistoryEntry) :
    (ingestionPortalOnSuccess nowMs nowIso ty d prev).length ≤ 20 := by
  simp only [ingestionPortalOnSuccess, List.length_cons, List.length_take]
  omega

theorem foldl_handleIngestSuccess_length (events : List IngestEvent) :
    ∀ acc : List HistoryEntry, acc.length ≤ 20 →
      (events.foldl
        (fun a e => handleIngestSuccess e.nowMs e.nowIso e.type e.data a) acc).length
        ≤ 20 := by
  induction events with
  | nil => intro acc h; simpa using h
  | cons e rest ih =>
      intro acc _
      rw [List.foldl_cons]
      exact ih _ (handleIngestSuccess_length e.nowMs e.nowIso e.type e.data acc)

theorem foldl_ingestionPortalOnSuccess_length (events : List IngestEvent) :
    ∀ acc : List HistoryEntry, acc.length ≤ 20 →
      (events.foldl
        (fun a e => ingestionPortalOnSuccess e.nowMs e.nowIso e.type e.data a) acc).length
        ≤ 20 := by
  induction events with
  | nil => intro acc h; simpa using h
  | cons e rest ih =>
      intro acc _
      rw [List.foldl_cons]
      exact ih _ (ingestionPortalOnSuccess_length e.nowMs e.nowIso e.type e.data acc)

/-- C4: in both portal variants the ingestion history never exceeds 20
entries for any sequence of successful submissions (and even for an
arbitrary previous state), the freshly created entry is always first, and
the surviving older entries keep their order. -/
theorem history_bounded_and_newest_first :
    (∀ events : List IngestEvent,
      (runHistory events).length ≤ 20 ∧ (runHistoryPortal events).length ≤ 20)
    ∧ (∀ (nowMs : Nat) (nowIso ty : String) (d : Json) (prev : List HistoryEntry),
        (handleIngestSuccess nowMs nowIso ty d prev).length ≤ 20
        ∧ (handleIngestSuccess nowMs nowIso ty d prev).head? =
            some ⟨nowMs, nowIso, "success", ty, d⟩
        ∧ (handleIngestSuccess nowMs nowIso ty d prev).tail = prev.take 19)
    ∧ (∀ (nowMs : Nat) (nowIso ty : String) (d : Json) (prev : List HistoryEntry),
        (ingestionPortalOnSuccess nowMs nowIso ty d prev).length ≤ 20
        ∧ (ingestionPortalOnSuccess nowMs nowIso ty d prev).head? =
            some ⟨nowMs, nowIso, "success", ty, d⟩
        ∧ (ingestionPortalOnSuccess nowMs nowIso ty d prev).tail = prev.take 9) := by
  refine ⟨?_, ?_, ?_⟩
  · intro events
    exact ⟨foldl_handleIngestSuccess_length events [] (by simp),
      foldl_ingestionPortalOnSuccess_length events [] (by simp)⟩
  · intro nowMs nowIso ty d prev
    exact ⟨handleIngestSuccess_length nowMs nowIso ty d prev, rfl, rfl⟩
  · intro nowMs nowIso ty d prev
    exact ⟨ingestionPortalOnSuccess_length nowMs nowIso ty d prev, rfl, rfl⟩

/-- C7: in both modes the mutation is invoked exactly when the buffer is not
empty or whitespace-only and parses as JSON; otherwise the submit handler
stops with a local notice and no network call. -/
theorem submit_local_validation (parse : String → Option Json)
    (nowIso ty buf : String) :
    (invokesMutation (handleSubmit parse nowIso ty buf) = true ↔
      (jsTrim buf ≠ "" ∧ (parse buf).isSome))
    ∧ ((jsTrim buf = "" ∨ parse buf = none) →
        ∃ notice, handleSubmit parse nowIso ty buf = .noCall notice) := by
  constructor
  · rw [handleSubmit]
    by_cases h : jsTrim buf = ""
    · simp [h, invokesMutation]
    · simp only [h, if_false, ne_eq, not_false_iff, true_and]
      cases hp : parse buf with
      | none => simp [invokesMutation]
      | some payload =>
          by_cases hty : ty = "sustainability" <;> simp [hty, invokesMutation]
  · intro h
    rw [handleSubmit]
    rcases h with h | h
    · exact ⟨"Please enter JSON payload or load an example", by simp [h]⟩
    · by_cases ht : jsTrim buf = ""
      · exact ⟨"Please enter JSON payload or load an example", by simp [ht]⟩
      · exact ⟨"Invalid JSON", by simp [ht, h]⟩

/-- C7 witness: a malformed buffer (parse failure) produces a local notice
and, by the equivalence, no mutation. -/
theorem submit_local_validation_witness :
    (∃ notice, handleSubmit (fun _ => none) "2024-01-01T00:00:00.000Z"
      "sustainability" "bad json" = .noCall notice)
    ∧ invokesMutation (handleSubmit (constParse (.num 1))
        "2024-01-01T00:00:00.000Z" "legacy" "1") = true :=
  ⟨(submit_local_validation (fun _ => none) "2024-01-01T00:00:00.000Z"
      "sustainability" "bad json").2 (Or.inr rfl),
   (submit_local_validation (constParse (.num 1)) "2024-01-01T00:00:00.000Z"
      "legacy" "1").1.mpr ⟨by decide, rfl⟩⟩

/-- C5: saving with an empty or whitespace-only name, an empty buffer, or a
buffer that does not parse leaves the custom mock list unchanged and runs no
storage write; a valid save prepends the new record (and writes). -/
theorem save_custom_mock_validation (parse : String → Option Json)
    (nowMs : Nat) (nowIso ty input name : String) (prev : List CustomMock) :
    ((jsTrim name = "" ∨ jsTrim input = "" ∨ parse input = none) →
      handleSaveCustomMock parse nowMs nowIso ty input name prev = (prev, false))
    ∧ (jsTrim input ≠ "" → jsTrim name ≠ "" → ∀ j, parse input = some j →
        handleSaveCustomMock parse nowMs nowIso ty input name prev =
          ({ id := "custom-" ++ Nat.repr nowMs, name := jsTrim name,
             payload := jsTrim input, type := ty, savedAt := nowIso } :: prev, true)) := by
  constructor
  · intro h
    rw [handleSaveCustomMock]
    rcases h with h | h | h
    · by_cases hi : jsTrim input = ""
      · simp [hi]
      · simp [h, hi]
    · simp [h]
    · by_cases hi : jsTrim input = ""
      · simp [hi]
      · by_cases hn : jsTrim name = ""
        · simp [hi, hn]
        · simp [hi, hn, h]
  · intro hi hn j hj
    rw [handleSaveCustomMock]
    simp [hi, hn, hj]

/-- C5 witness: an unnamed save is rejected without mutation, and a valid
save prepends. -/
theorem save_custom_mock_validation_witness :
    handleSaveCustomMock (constParse (.num 1)) 7 "2024-01-01T00:00:00.007Z"
      "sustainability" "1" "  " [sampleCustomMock] = ([sampleCustomMock], false)
    ∧ handleSaveCustomMock (constParse (.num 1)) 7 "2024-01-01T00:00:00.007Z"
        "sustainability" "1" "n" [] =
        ([{ id := "custom-" ++ Nat.repr 7, name := "n", payload := "1",
            type := "sustainability", savedAt := "2024-01-01T00:00:00.007Z" }], true) :=
  ⟨(save_custom_mock_validation (constParse (.num 1)) 7 "2024-01-01T00:00:00.007Z"
      "sustainability" "1" "  " [sampleCustomMock]).1 (Or.inl (by decide)),
   by
    have h := (save_custom_mock_validation (constParse (.num 1)) 7
      "2024-01-01T00:00:00.007Z" "sustainability" "1" "n" []).2
      (by decide) (by decide) (.num 1) rfl
    simpa using h⟩

/-- C3: on submit in sustainability mode a parsed object without a timestamp
field is submitted extended with the current clock's ISO string as its
timestamp; an object already carrying the timestamp "2024-01-01T00:00:00Z"
is submitted unchanged; in legacy mode the parsed JSON is submitted
verbatim. -/
theorem submit_timestamp_injection (parse : String → Option Json)
    (nowIso buf : String) (h : jsTrim buf ≠ "") :
    (∀ fields, parse buf = some (.obj fields) →
      lookupField fields "timestamp" = none →
      handleSubmit parse nowIso "sustainability" buf =
        .sustainability (.obj (fields ++ [("timestamp", .str nowIso)])))
    ∧ (∀ fields, parse buf = some (.obj fields) →
        lookupField fields "timestamp" = some (.str "2024-01-01T00:00:00Z") →
        handleSubmit parse nowIso "sustainability" buf =
          .sustainability (.obj fields))
    ∧ (∀ payload, parse buf = some payload →
        handleSubmit parse nowIso "legacy" buf = .legacy payload) := by
  refine ⟨?_, ?_, ?_⟩
  · intro fields hp hl
    rw [handleSubmit]
    simp only [h, if_false, hp, if_true]
    rw [injectTimestamp]
    simp [hl, optTruthy, setField_of_lookup_none fields "timestamp" _ hl]
  · intro fields hp hl
    rw [handleSubmit]
    simp only [h, if_false, hp, if_true]
    rw [injectTimestamp]
    simp [hl, optTruthy, Json.truthy]
  · intro payload hp
    rw [handleSubmit]
    simp [h, hp]

/-- C3 witness: concrete object buffers with and without a timestamp field,
and a legacy submission. -/
theorem submit_timestamp_injection_witness :
    handleSubmit (constParse (.obj [("a", .num 1)])) "2025-06-01T12:00:00.000Z"
      "sustainability" "x" =
      .sustainability (.obj [("a", .num 1),
        ("timestamp", .str "2025-06-01T12:00:00.000Z")])
    ∧ handleSubmit (constParse (.obj [("timestamp", .str "2024-01-01T00:00:00Z")]))
        "2025-06-01T12:00:00.000Z" "sustainability" "x" =
        .sustainability (.obj [("timestamp", .str "2024-01-01T00:00:00Z")])
    ∧ handleSubmit (constParse (.obj [("CO2_ppm", .num 420)]))
        "2025-06-01T12:00:00.000Z" "legacy" "x" =
        .legacy (.obj [("CO2_ppm", .num 420)]) :=
  ⟨(submit_timestamp_injection (constParse (.obj [("a", .num 1)]))
      "2025-06-01T12:00:00.000Z" "x" (by decide)).1 [("a", .num 1)] rfl rfl,
   (submit_timestamp_injection
      (constParse (.obj [("timestamp", .str "2024-01-01T00:00:00Z")]))
      "2025-06-01T12:00:00.000Z" "x" (by decide)).2.1
      [("timestamp", .str "2024-01-01T00:00:00Z")] rfl rfl,
   (submit_timestamp_injection (constParse (.obj [("CO2_ppm", .num 420)]))
      "2025-06-01T12:00:00.000Z" "x" (by decide)).2.2
      (.obj [("CO2_ppm", .num 420)]) rfl⟩

/-- C10: in the summary-statistics derivation a pue or utilization_pct
metric whose value is 0 or absent is reported as absent (never as 0), and
the summary critical flags can only be driven by a present nonzero value. -/
theorem summary_zero_collapses_to_null (data : Report) :
    (avgPUE data ≠ some 0 ∧ avgUtilization data ≠ some 0)
    ∧ (∀ m, data.efficiency.bind
          (List.find? (fun m => m.metric_type == "pue")) = some m →
        (m.value = none ∨ m.value = some 0) → avgPUE data = none)
    ∧ (∀ m, data.hardware.bind
          (List.find? (fun m => m.metric_type == "utilization_pct")) = some m →
        (m.value = none ∨ m.value = some 0) → avgUtilization data = none)
    ∧ (summaryPueCritical data = true →
        ∃ v, avgPUE data = some v ∧ v ≠ 0 ∧ 2 < v)
    ∧ (summaryUtilCritical data = true →
        ∃ v, avgUtilization data = some v ∧ v ≠ 0 ∧ v < 30) := by
  have hp : avgPUE data ≠ some 0 := by
    rw [avgPUE]
    cases hv : (data.efficiency.bind
        (List.find? (fun m => m.metric_type == "pue"))).bind Metric.value with
    | none => simp [jsNumOrNull]
    | some x =>
        rw [jsNumOrNull]
        by_cases hx : x = 0 <;> simp [hx]
  have hu : avgUtilization data ≠ some 0 := by
    rw [avgUtilization]
    cases hv : (data.hardware.bind
        (List.find? (fun m => m.metric_type == "utilization_pct"))).bind Metric.value with
    | none => simp [jsNumOrNull]
    | some x =>
        rw [jsNumOrNull]
        by_cases hx : x = 0 <;> simp [hx]
  refine ⟨⟨hp, hu⟩, ?_, ?_, ?_, ?_⟩
  · intro m hm hv
    rw [avgPUE, hm]
    rcases hv with hv | hv <;> simp [hv, jsNumOrNull]
  · intro m hm hv
    rw [avgUtilization, hm]
    rcases hv with hv | hv <;> simp [hv, jsNumOrNull]
  · rw [summaryPueCritical]
    cases hv : avgPUE data with
    | none => simp
    | some x =>
        intro hx
        exact ⟨x, rfl, fun h0 => hp (by rw [hv, h0]), by simpa using hx⟩
  · rw [summaryUtilCritical]
    cases hv : avgUtilization data with
    | none => simp
    | some x =>
        intro hx
        exact ⟨x, rfl, fun h0 => hu (by rw [hv, h0]), by simpa using hx⟩

/-- C10 witness: a report whose only pue metric has value 0 reports an
absent summary PUE and an inactive critical flag. -/
theorem summary_zero_collapses_to_null_witness :
    avgPUE zeroPueReport = none :=
  (summary_zero_collapses_to_null zeroPueReport).2.1 zeroPueMetric rfl (Or.inr rfl)

theorem sustainability_mock_fields (mock : Mock)
    (hm : mock ∈ SUSTAINABILITY_MOCKS) (env : MockEnv) :
    (getMockPayload mock env).getField "external_event_id" =
      some (.str (uniqueId env))
    ∧ (getMockPayload mock env).getField "timestamp" = some (.str (now env)) := by
  simp only [SUSTAINABILITY_MOCKS, List.mem_cons, List.not_mem_nil, or_false] at hm
  rcases hm with rfl | rfl | rfl | rfl | rfl | rfl | rfl | rfl | rfl <;>
    exact ⟨rfl, rfl⟩

/-- C1 counterexample: the legacy-normal descriptor realized at two
different clock instants yields payloads that are completely identical and
carry no unique event identifier and no timestamp at all, so repeated
realizations of a legacy catalog entry do not differ in any
idempotency-relevant field. -/
theorem legacy_mock_realizations_identical :
    getMockPayload legacyNormal envA = getMockPayload legacyNormal envB
    ∧ (getMockPayload legacyNormal envA).getField "external_event_id" = none
    ∧ (getMockPayload legacyNormal envA).getField "timestamp" = none :=
  ⟨rfl, rfl, rfl⟩

/-- C1 amended: for every descriptor of the sustainability catalog, two
realizations whose host environments differ in the clock millisecond value
or in the (dash-free) random suffix carry distinct external event
identifiers, and each realization's timestamp field is its own
realization instant. -/
theorem sustainability_mock_fresh_ids (mock : Mock)
    (hm : mock ∈ SUSTAINABILITY_MOCKS) (e1 e2 : MockEnv)
    (h1 : ∀ c ∈ e1.rand.data, c ≠ '-') (h2 : ∀ c ∈ e2.rand.data, c ≠ '-')
    (hne : e1.nowMs ≠ e2.nowMs ∨ e1.rand ≠ e2.rand) :
    (getMockPayload mock e1).getField "external_event_id" ≠
      (getMockPayload mock e2).getField "external_event_id"
    ∧ (getMockPayload mock e1).getField "timestamp" = some (.str e1.nowIso)
    ∧ (getMockPayload mock e2).getField "timestamp" = some (.str e2.nowIso) := by
  refine ⟨?_, (sustainability_mock_fields mock hm e1).2,
    (sustainability_mock_fields mock hm e2).2⟩
  rw [(sustainability_mock_fields mock hm e1).1,
    (sustainability_mock_fields mock hm e2).1]
  intro hcontra
  simp only [Option.some.injEq, Json.str.injEq] at hcontra
  have hid := uniqueId_inj e1 e2 h1 h2 hcontra
  rcases hne with hne | hne
  · exact hne hid.1
  · exact hne hid.2

/-- C1 witness: two concrete realizations of the first sustainability
descriptor at distinct clock values carry distinct event identifiers. -/
theorem sustainability_mock_fresh_ids_witness :
    (getMockPayload aiTrainingFull envA).getField "external_event_id" ≠
      (getMockPayload aiTrainingFull envB).getField "external_event_id" :=
  (sustainability_mock_fresh_ids aiTrainingFull
    (by simp [SUSTAINABILITY_MOCKS]) envA envB (by decide) (by decide)
    (Or.inl (by decide))).1

/-- C8 counterexample: two saves landing in the same wall-clock millisecond
produce two custom mocks with the same id, so id uniqueness is not an
unconditional invariant of the list. -/
theorem custom_mock_id_collision :
    (runSaves (constParse (.num 1)) [saveOpA, saveOpB] []).map CustomMock.id =
      ["custom-5", "custom-5"]
    ∧ ¬ ((runSaves (constParse (.num 1)) [saveOpA, saveOpB] []).map
          CustomMock.id).Nodup := by
  constructor
  · decide
  · decide

theorem save_result_cases (parse : String → Option Json) (nowMs : Nat)
    (nowIso ty input name : String) (prev : List CustomMock) :
    (handleSaveCustomMock parse nowMs nowIso ty input name prev).1 = prev ∨
    (handleSaveCustomMock parse nowMs nowIso ty input name prev).1 =
      { id := "custom-" ++ Nat.repr nowMs, name := jsTrim name,
        payload := jsTrim input, type := ty, savedAt := nowIso } :: prev := by
  rw [handleSaveCustomMock]
  by_cases h : jsTrim input = "" ∨ jsTrim name = ""
  · simp [h]
  · simp only [h, if_false]
    cases parse input <;> simp

theorem runSaves_nodup_aux (parse : String → Option Json) :
    ∀ (ops : List SaveOp) (acc : List CustomMock),
      (acc.map CustomMock.id).Nodup →
      (∀ m ∈ acc, ∀ op ∈ ops, m.id ≠ "custom-" ++ Nat.repr op.nowMs) →
      ops.Pairwise (fun a b => a.nowMs ≠ b.nowMs) →
      ((runSaves parse ops acc).map CustomMock.id).Nodup := by
  intro ops
  induction ops with
  | nil => intro acc h _ _; simpa [runSaves] using h
  | cons op rest ih =>
      intro acc hacc hfresh hpair
      rw [runSaves, List.foldl_cons]
      rw [List.pairwise_cons] at hpair
      rcases save_result_cases parse op.nowMs op.nowIso op.ingestionType
          op.jsonInput op.customMockName acc with hcase | hcase
      · rw [hcase]
        exact ih acc hacc
          (fun m hm op' hop' => hfresh m hm op' (List.mem_cons_of_mem op hop'))
          hpair.2
      · rw [hcase]
        apply ih
        · rw [List.map_cons, List.nodup_cons]
          refine ⟨?_, hacc⟩
          intro hmem
          rcases List.mem_map.mp hmem with ⟨m, hm, hid⟩
          exact hfresh m hm op (List.mem_cons_self op rest) hid
        · intro m hm op' hop'
          rcases List.mem_cons.mp hm with rfl | hm
          · intro hid
            exact hpair.1 op' hop' (customId_inj op.nowMs op'.nowMs hid)
          · exact hfresh m hm op' (List.mem_cons_of_mem op hop')
        · exact hpair.2

/-- C8 amended: for any sequence of save clicks whose wall-clock millisecond
values are pairwise distinct, all ids in the resulting custom mock list are
pairwise distinct (ids are generated at creation time from the clock). -/
theorem custom_mock_ids_unique (parse : String → Option Json)
    (ops : List SaveOp)
    (hdist : ops.Pairwise (fun a b => a.nowMs ≠ b.nowMs)) :
    ((runSaves parse ops []).map CustomMock.id).Nodup :=
  runSaves_nodup_aux parse ops [] (by simp) (by simp) hdist

/-- C8 witness: two concrete saves at distinct milliseconds yield distinct
ids. -/
theorem custom_mock_ids_unique_witness :
    ((runSaves (constParse (.num 1)) [saveOpA, saveOpC] []).map
      CustomMock.id).Nodup :=
  custom_mock_ids_unique (constParse (.num 1)) [saveOpA, saveOpC] (by decide)

theorem jsNullish_some_of_ne_null (m : Json) (h : m ≠ .null) :
    jsNullish (some m) = some m := by
  cases m <;> first | rfl | exact absurd rfl h

theorem getField_obj (fields : List (String × Json)) (k : String) :
    (Json.obj fields).getField k = lookupField fields k := rfl

theorem truthy_obj (fields : List (String × Json)) :
    (Json.obj fields).truthy = true := rfl

/-- C6 counterexample: for a 400 response whose body is the documented
structured shape, the fetch-based request wrapper coerces the error object
itself to the message string "[object Object]" instead of extracting the
structured error.message value "bad field". -/
theorem request_wrapper_stringifies_structured_error :
    (requestError (some structuredErrorBody) "Bad Request" 400).message =
      "[object Object]"
    ∧ (requestError (some structuredErrorBody) "Bad Request" 400).message ≠
      "bad field"
    ∧ (requestError (some structuredErrorBody) "Bad Request" 400).status = 400
    ∧ (requestError (some structuredErrorBody) "Bad Request" 400).data =
      some structuredErrorBody := by
  have hmsg : (requestError (some structuredErrorBody) "Bad Request" 400).message =
      "[object Object]" := by
    show jsToString (requestErrorValue (some structuredErrorBody) "Bad Request" 400) =
      "[object Object]"
    rw [show requestErrorValue (some structuredErrorBody) "Bad Request" 400 =
      Json.obj [("code", .str "VALIDATION"), ("message", .str "bad field")] from rfl]
    simp [jsToString]
  refine ⟨hmsg, ?_, rfl, rfl⟩
  rw [hmsg]
  decide

/-- C6 amended: the axios client wrapper (client.js) derives the error
message in the claimed priority order — structured error.message, then a
string error field, then a top-level message field, then the transport-level
message — and carries the numeric status and the parsed body; the fetch-based
request helper deviates on the first priority (see the counterexample). -/
theorem client_wrapper_error_priority (status : Nat) (body : Json) (tmsg : String) :
    ((clientError (some (status, body)) tmsg).status = some status)
    ∧ ((clientError (some (status, body)) tmsg).data = some body)
    ∧ (∀ fields e m, body = .obj fields → lookupField fields "error" = some e →
        e.isTruthyObject = true → e.getField "message" = some m →
        m.truthy = true →
        (clientError (some (status, body)) tmsg).message = jsToString m)
    ∧ (∀ fields s, body = .obj fields →
        lookupField fields "error" = some (.str s) →
        (clientError (some (status, body)) tmsg).message = s)
    ∧ (∀ fields m, body = .obj fields → lookupField fields "error" = none →
        lookupField fields "message" = some m → m ≠ .null →
        (clientError (some (status, body)) tmsg).message = jsToString m)
    ∧ (∀ fields, body = .obj fields → lookupField fields "error" = none →
        lookupField fields "message" = none →
        (clientError (some (status, body)) tmsg).message = tmsg) := by
  refine ⟨rfl, rfl, ?_, ?_, ?_, ?_⟩
  · rintro fields e m rfl herr hobj hmsg htru
    have he : errorMessage (some (.obj fields)) = some m := by
      rw [errorMessage]
      simp [truthy_obj, getField_obj, herr, hobj, hmsg, optTruthy, htru]
    show (match errorMessage (some (.obj fields)) with
      | some v => jsToString v
      | none => tmsg) = jsToString m
    rw [he]
  · rintro fields s rfl herr
    have he : errorMessage (some (.obj fields)) = some (.str s) := by
      rw [errorMessage]
      simp [truthy_obj, getField_obj, herr, Json.isTruthyObject]
    show (match errorMessage (some (.obj fields)) with
      | some v => jsToString v
      | none => tmsg) = s
    rw [he]
    simp [jsToString]
  · rintro fields m rfl herr hmsg hnn
    have he : errorMessage (some (.obj fields)) = some m := by
      rw [errorMessage]
      simp [truthy_obj, getField_obj, herr, hmsg,
        jsNullish_some_of_ne_null m hnn]
    show (match errorMessage (some (.obj fields)) with
      | some v => jsToString v
      | none => tmsg) = jsToString m
    rw [he]
  · rintro fields rfl herr hmsg
    have he : errorMessage (some (.obj fields)) = none := by
      rw [errorMessage]
      simp [truthy_obj, getField_obj, herr, hmsg, jsNullish]
    show (match errorMessage (some (.obj fields)) with
      | some v => jsToString v
      | none => tmsg) = tmsg
    rw [he]

/-- C6 witness: on a concrete 400 response with the documented structured
body the axios wrapper's message is exactly the structured error.message
value. -/
theorem client_wrapper_error_priority_witness :
    (clientError (some (400, structuredErrorBody)) "transport").message =
      "bad field" := by
  have h := (client_wrapper_error_priority 400 structuredErrorBody "transport").2.2.1
    [("error", .obj [("code", .str "VALIDATION"), ("message", .str "bad field")])]
    (.obj [("code", .str "VALIDATION"), ("message", .str "bad field")])
    (.str "bad field") rfl rfl rfl rfl rfl
  rw [h]
  simp [jsToString]


end EsgPortal
